import Mathlib

/-!
Shallow embedding of the EduFlow web application (js/core.js, js/tasks.js,
js/pomodoro.js, js/flashcards.js) and proofs about its data model and
operations: the Storage wrapper over localStorage, the TaskManager CRUD
operations, the PomodoroManager timer state machine and its statistics,
and the FlashcardManager study-cursor navigation.

JavaScript numbers are modelled as `Option Int` (`none` is NaN), since every
arithmetic path in this code stays on integers except where NaN can arise
(`x % 0`, arithmetic on a non-numeric input).
-/

namespace EduFlow

/-- A JavaScript number restricted to the integer values this code computes;
`none` represents NaN. -/
abbrev JsInt := Option Int

/-- JS addition: NaN propagates. -/
def jsAdd : JsInt → JsInt → JsInt
  | some a, some b => some (a + b)
  | _, _ => none

/-- JS subtraction: NaN propagates. -/
def jsSub : JsInt → JsInt → JsInt
  | some a, some b => some (a - b)
  | _, _ => none

/-- JS multiplication: NaN propagates. -/
def jsMul : JsInt → JsInt → JsInt
  | some a, some b => some (a * b)
  | _, _ => none

/-- JS remainder `%`: truncated remainder (sign of the dividend); `x % 0` is
NaN, and NaN propagates. -/
def jsMod : JsInt → JsInt → JsInt
  | some a, some b => if b = 0 then none else some (a.tmod b)
  | _, _ => none

/-- JS comparison `x > 0`: false on NaN. -/
def jsGtZero : JsInt → Bool
  | some a => decide (0 < a)
  | none => false

/-! ### core.js: the Storage wrapper over localStorage

`localStorage` holds serialized strings; an entry either deserializes to a
value of the stored schema (`good v`, the JSON.stringify/JSON.parse
round-trip) or is corrupt, in which case `JSON.parse` throws.  The store may
be in a quota-exceeded condition, in which case `setItem` throws. -/

/-- A raw localStorage entry: either well-formed serialized data for a value
`v`, or corrupt data on which `JSON.parse` throws. -/
inductive JsonEntry (V : Type) where
  | good (v : V)
  | corrupt
deriving DecidableEq, Repr

/-- The browser localStorage visible to one schema `V`: its entries and
whether writes currently fail with a quota error. -/
structure Store (V : Type) where
  entries : List (String × JsonEntry V)
  quotaExceeded : Bool
deriving DecidableEq, Repr

/-- Embeds `localStorage.getItem(key)`: the entry stored at `key`, if any
(first binding wins; `Storage.set` prepends). -/
def getItem {V : Type} (s : Store V) (k : String) : Option (JsonEntry V) :=
  (s.entries.find? (fun p => p.1 = k)).map Prod.snd

/-- Embeds `JSON.parse` on a raw entry: throws (an `Except.error`) on corrupt data. -/
def jsonParse {V : Type} : JsonEntry V → Except String V
  | .good v => .ok v
  | .corrupt => .error "SyntaxError"

/-- Embeds `localStorage.setItem(key, JSON.stringify(value))`: throws when the quota
is exceeded, otherwise binds `key` to the serialized value. -/
def setItemRaw {V : Type} (s : Store V) (k : String) (v : V) :
    Except String (Store V) :=
  if s.quotaExceeded then .error "QuotaExceededError"
  else .ok { s with entries := (k, .good v) :: s.entries }

namespace Storage

/-- Embeds `Storage.get` from core.js: `try { const data = localStorage.getItem(key);
return data ? JSON.parse(data) : null } catch (err) { ...; return null }`.
Total by construction: every throwing path is caught and yields `none`. -/
def get {V : Type} (s : Store V) (k : String) : Option V :=
  match getItem s k with
  | none => none
  | some e =>
    match jsonParse e with
    | .ok v => some v
    | .error _ => none

/-- Embeds `Storage.set` from core.js: `try { localStorage.setItem(key,
JSON.stringify(value)) } catch (err) { console.error(...) }`.  Total by
construction: a write failure is caught and leaves the store unchanged. -/
def set {V : Type} (s : Store V) (k : String) (v : V) : Store V :=
  match setItemRaw s k v with
  | .ok s2 => s2
  | .error _ => s

end Storage

/-- Embeds `StorageKeys.TASKS`. -/
def tasksKey : String := "eduflow_tasks"

/-- Embeds `StorageKeys.POMODORO_STATS`. -/
def pomodoroStatsKey : String := "eduflow_pomodoro"

/-- Embeds `StorageKeys.FLASHCARDS`. -/
def flashcardsKey : String := "eduflow_flashcards"

/-! ### pomodoro.js: the PomodoroManager timer state machine -/

/-- Timer modes: `'focus'`, `'short'`, `'long'`. -/
inductive Mode where
  | focus
  | short
  | long
deriving DecidableEq, Repr

/-- Embeds `this.modes[mode].time`, the fixed per-mode minute table set in the
constructor (`focus: 25, short: 5, long: 15`); nothing in pomodoro.js ever
mutates it. -/
def modeTime : Mode → Int
  | .focus => 25
  | .short => 5
  | .long => 15

/-- Embeds `this.stats`: `{ pomodoroCount, totalFocusTime, bestStreak,
currentStreak }`. -/
structure Stats where
  pomodoroCount : Int
  totalFocusTime : Int
  bestStreak : Int
  currentStreak : Int
deriving DecidableEq, Repr

/-- The zero-initialized stats of the PomodoroManager constructor. -/
def initialStats : Stats :=
  { pomodoroCount := 0, totalFocusTime := 0, bestStreak := 0,
    currentStreak := 0 }

/-- The PomodoroManager instance state: countdown seconds (`this.time`, a JS
number that can become NaN or negative through `setMode`), the running flag,
the current mode, the stats object, and the localStorage the `save` calls
write`this.stats` to. -/
structure PomodoroState where
  time : JsInt
  isRunning : Bool
  currentMode : Mode
  stats : Stats
  store : Store Stats
deriving DecidableEq, Repr

namespace PomodoroManager

/-- Embeds `setMode(mode, minutes)`: `this.currentMode = mode; this.time =
minutes * 60;` followed only by DOM updates.  No validation or coercion of
`minutes` happens here; `this.modes` is untouched. -/
def setMode (s : PomodoroState) (mode : Mode) (minutes : JsInt) :
    PomodoroState :=
  { s with currentMode := mode, time := jsMul minutes (some 60) }

/-- Embeds `pause()`: `this.isRunning = false; clearInterval(...)` plus a DOM
label update. -/
def pause (s : PomodoroState) : PomodoroState :=
  { s with isRunning := false }

/-- Embeds `save()`: `Storage.set(StorageKeys.POMODORO_STATS, this.stats)`. -/
def save (s : PomodoroState) : PomodoroState :=
  { s with store := Storage.set s.store pomodoroStatsKey s.stats }

/-- Embeds `reset()`: `this.pause(); this.time = this.modes[this.currentMode].time
* 60;` plus DOM updates. -/
def reset (s : PomodoroState) : PomodoroState :=
  let s := pause s
  { s with time := some (modeTime s.currentMode * 60) }

/-- Embeds `complete()`: pauses, and if the mode is `'focus'` increments
`pomodoroCount`, adds the fixed `this.modes.focus.time` to `totalFocusTime`,
increments `currentStreak`, raises `bestStreak` to
`Math.max(bestStreak, currentStreak)`, saves the stats, and selects the next
mode (`'long'` with 15 minutes when the new `pomodoroCount % 4 === 0`,
otherwise `'short'` with 5 minutes) via `setMode`; if the mode was a break it
selects `'focus'` with 25 minutes via `setMode` and touches nothing else. -/
def complete (s : PomodoroState) : PomodoroState :=
  let s := pause s
  if s.currentMode = Mode.focus then
    let stats : Stats :=
      { pomodoroCount := s.stats.pomodoroCount + 1,
        totalFocusTime := s.stats.totalFocusTime + modeTime Mode.focus,
        bestStreak := max s.stats.bestStreak (s.stats.currentStreak + 1),
        currentStreak := s.stats.currentStreak + 1 }
    let s := save { s with stats := stats }
    if stats.pomodoroCount.tmod 4 = 0 then
      setMode s Mode.long (some 15)
    else
      setMode s Mode.short (some 5)
  else
    setMode s Mode.focus (some 25)

/-- Embeds `start()`: returns immediately when already running, otherwise sets
`isRunning` and registers the countdown interval (DOM work omitted). -/
def start (s : PomodoroState) : PomodoroState :=
  if s.isRunning then s else { s with isRunning := true }

/-- One firing of the interval callback registered by `start()`: decrements
the countdown while `this.time > 0` (false on NaN), otherwise runs
`complete()`. -/
def tick (s : PomodoroState) : PomodoroState :=
  if jsGtZero s.time then
    { s with time := jsSub s.time (some 1) }
  else
    complete s

end PomodoroManager

/-- A timer operation observable on the PomodoroManager. -/
inductive Op where
  | setMode (mode : Mode) (minutes : JsInt)
  | start
  | pause
  | reset
  | tick
deriving DecidableEq, Repr

/-- Apply one timer operation. -/
def step (s : PomodoroState) : Op → PomodoroState
  | .setMode mode minutes => PomodoroManager.setMode s mode minutes
  | .start => PomodoroManager.start s
  | .pause => PomodoroManager.pause s
  | .reset => PomodoroManager.reset s
  | .tick => PomodoroManager.tick s

/-- Apply a sequence of timer operations. -/
def run (s : PomodoroState) (ops : List Op) : PomodoroState :=
  ops.foldl step s

/-! ### flashcards.js: the FlashcardManager study cursor -/

/-- A flashcard record as built by `addFlashcard`. -/
structure Flashcard where
  id : Int
  subject : String
  question : String
  answer : String
  reviews : Int
  lastReviewed : Option String
deriving DecidableEq, Repr

/-- The FlashcardManager instance state relevant to navigation: the
collection and `this.currentCardIndex`, a JS number (NaN representable). -/
structure FlashcardState where
  flashcards : List Flashcard
  currentCardIndex : JsInt
deriving DecidableEq, Repr

namespace FlashcardManager

/-- Embeds `nextCard()`: `this.currentCardIndex = (this.currentCardIndex + 1) %
this.flashcards.length;` followed by `displayCurrentCard()` (DOM only).
There is no emptiness guard: with length 0 the JS `%` yields NaN. -/
def nextCard (s : FlashcardState) : FlashcardState :=
  let idx := jsMod (jsAdd s.currentCardIndex (some 1))
    (some (s.flashcards.length : Int))
  { s with currentCardIndex := idx }

/-- Embeds `previousCard()`: `this.currentCardIndex = (this.currentCardIndex - 1 +
this.flashcards.length) % this.flashcards.length;` followed by
`displayCurrentCard()` (DOM only).  There is no emptiness guard. -/
def previousCard (s : FlashcardState) : FlashcardState :=
  let idx := jsMod
    (jsAdd (jsSub s.currentCardIndex (some 1))
      (some (s.flashcards.length : Int)))
    (some (s.flashcards.length : Int))
  { s with currentCardIndex := idx }

end FlashcardManager

/-! ### tasks.js: the TaskManager CRUD operations -/

/-- A task record with the schema built by `addTask`. -/
structure Task where
  id : Int
  title : String
  desc : String
  date : String
  time : Int
  priority : String
  completed : Bool
  createdAt : String
deriving DecidableEq, Repr

/-- The argument object of `addTask(taskData)`.  `none` in a string field is
an absent/undefined property; `time` carries the result of
`parseInt(taskData.time)` with `none` for NaN (absent or non-numeric
input). -/
structure TaskData where
  title : Option String
  desc : Option String
  date : Option String
  time : Option Int
  priority : Option String
deriving DecidableEq, Repr

/-- JS falsiness of an optional string property: `undefined` and `''` are
falsy, every other string is truthy. -/
def falsyStr : Option String → Bool
  | none => true
  | some s => s.isEmpty

/-- Embeds `x || d` for an optional string property with default `d`. -/
def orDefaultStr (x : Option String) (d : String) : String :=
  match x with
  | none => d
  | some s => if s.isEmpty then d else s

/-- Embeds `parseInt(taskData.time) || 25`: NaN and `0` are falsy and give 25; every
other parsed integer — negative values included — is kept. -/
def timeOrDefault (t : Option Int) : Int :=
  match t with
  | none => 25
  | some n => if n = 0 then 25 else n

/-- The TaskManager instance state: `this.tasks` and the localStorage its
`save()` writes the collection to. -/
structure TaskManagerState where
  tasks : List Task
  store : Store (List Task)
deriving DecidableEq, Repr

namespace TaskManager

/-- Embeds `addTask(taskData)`: throws when `!taskData.title || !taskData.date`,
otherwise builds the task record — `id: Date.now()` (the `now` argument),
`desc: taskData.desc || ''`, `time: parseInt(taskData.time) || 25`,
`priority: taskData.priority || 'media'`, `completed: false`,
`createdAt: new Date().toISOString()` (the `createdAt` argument) — appends
it, saves the collection, and returns the created task (UI calls omitted). -/
def addTask (now : Int) (createdAt : String) (st : TaskManagerState)
    (d : TaskData) : Except String (TaskManagerState × Task) :=
  if falsyStr d.title || falsyStr d.date then
    .error "Title and date are required"
  else
    let task : Task :=
      { id := now,
        title := d.title.getD "",
        desc := orDefaultStr d.desc "",
        date := d.date.getD "",
        time := timeOrDefault d.time,
        priority := orDefaultStr d.priority "media",
        completed := false,
        createdAt := createdAt }
    let tasks := st.tasks ++ [task]
    .ok ({ tasks := tasks, store := Storage.set st.store tasksKey tasks },
      task)

/-- Embeds `deleteTask(id)`: `this.tasks = this.tasks.filter(t => t.id !== id);
this.save();` (then re-renders). -/
def deleteTask (st : TaskManagerState) (id : Int) : TaskManagerState :=
  let tasks := st.tasks.filter (fun t => t.id != id)
  { tasks := tasks, store := Storage.set st.store tasksKey tasks }

end TaskManager

/-! ### pomodoro.js `load()`: the object-spread merge of persisted stats

`load()` runs `this.stats = { ...this.stats, ...savedStats }` when
`Storage.get` returned a record.  To reason about arbitrary persisted
objects — partial records and records with extra fields — the merge is
embedded over JS objects represented as key/value lists read through
first-match lookup, the in-memory result being the key-to-value map of the
merged object. -/

/-- Property lookup on a JS object literal (first binding wins). -/
def jsLookup (obj : List (String × Int)) (k : String) : Option Int :=
  (obj.find? (fun p => p.1 = k)).map Prod.snd

/-- The constructor's `this.stats` object literal:
`{ pomodoroCount: 0, totalFocusTime: 0, bestStreak: 0, currentStreak: 0 }`. -/
def defaultStatsObj : List (String × Int) :=
  [("pomodoroCount", 0), ("totalFocusTime", 0), ("bestStreak", 0),
    ("currentStreak", 0)]

/-- The properties of `{ ...this.stats, ...savedStats }`: a key present in
`savedStats` wins, a key present only in the defaults keeps its default, and
`load()` leaves the defaults in place when nothing was persisted
(`savedStats` null). -/
def loadStatsObj (saved : Option (List (String × Int))) (k : String) :
    Option Int :=
  match saved with
  | none => jsLookup defaultStatsObj k
  | some obj =>
    match jsLookup obj k with
    | some v => some v
    | none => jsLookup defaultStatsObj k

/-! ### Concrete sample states used to evaluate the operations -/

/-- An empty stats store that accepts writes. -/
def statsStoreEmpty : Store Stats :=
  { entries := [], quotaExceeded := false }

/-- A running focus session whose countdown has reached 0. -/
def focusState : PomodoroState :=
  { time := some 0, isRunning := true, currentMode := Mode.focus,
    stats := initialStats, store := statsStoreEmpty }

/-- A running short-break session whose countdown has reached 0. -/
def shortBreakState : PomodoroState :=
  { time := some 0, isRunning := true, currentMode := Mode.short,
    stats := initialStats, store := statsStoreEmpty }

/-- An integer-schema store holding one corrupt entry under `"c"` and one
good entry (value 7) under `"d"`, currently over quota. -/
def intStoreFull : Store Int :=
  { entries := [("c", JsonEntry.corrupt), ("d", JsonEntry.good 7)],
    quotaExceeded := true }

/-- A sample flashcard. -/
def sampleCard (n : Int) : Flashcard :=
  { id := n, subject := "Mate", question := "q", answer := "a",
    reviews := 0, lastReviewed := none }

/-- A 3-card collection with the study cursor at index 0. -/
def threeCards : FlashcardState :=
  { flashcards := [sampleCard 1, sampleCard 2, sampleCard 3],
    currentCardIndex := some 0 }

/-- An empty collection with the study cursor at its initial index 0. -/
def emptyCards : FlashcardState :=
  { flashcards := [], currentCardIndex := some 0 }

/-- An empty task store that accepts writes. -/
def taskStoreEmpty : Store (List Task) :=
  { entries := [], quotaExceeded := false }

/-- A TaskManager with no tasks. -/
def tmEmpty : TaskManagerState :=
  { tasks := [], store := taskStoreEmpty }

/-- Valid task input with no optional fields. -/
def sampleTaskData : TaskData :=
  { title := some "Prueba", desc := none, date := some "2025-10-23",
    time := none, priority := none }

/-- Valid task input with all fields supplied. -/
def sampleTaskData2 : TaskData :=
  { title := some "Otra", desc := some "d", date := some "2025-10-24",
    time := some 30, priority := some "alta" }

/-- Valid task input whose `time` parsed to the negative integer -5. -/
def negTimeTaskData : TaskData :=
  { title := some "Prueba", desc := none, date := some "2025-10-23",
    time := some (-5), priority := none }

/-- Task input with an absent title (fails validation). -/
def badTaskData : TaskData :=
  { title := none, desc := none, date := some "2025-10-23",
    time := none, priority := none }

/-- The `time` field of the task returned by a successful `addTask` call. -/
def addedTaskTime (r : Except String (TaskManagerState × Task)) :
    Option Int :=
  match r with
  | .ok (_, t) => some t.time
  | .error _ => none

/-- The TaskManager state after two successful `addTask` calls that both
observed `Date.now() = 1000` (two calls within the same millisecond). -/
def afterTwoAdds : Option TaskManagerState :=
  match TaskManager.addTask 1000 "T1" tmEmpty sampleTaskData with
  | .ok (st1, _) =>
    match TaskManager.addTask 1000 "T2" st1 sampleTaskData2 with
    | .ok (st2, _) => some st2
    | .error _ => none
  | .error _ => none

/-- A sample stored task. -/
def sampleTask (n : Int) (title : String) : Task :=
  { id := n, title := title, desc := "", date := "2025-10-23", time := 25,
    priority := "media", completed := false, createdAt := "T" }

/-- A TaskManager holding two tasks with ids 1 and 2. -/
def tmTwoTasks : TaskManagerState :=
  { tasks := [sampleTask 1 "a", sampleTask 2 "b"], store := taskStoreEmpty }

/-- A persisted pomodoro-stats object with one known field and one field
outside the schema. -/
def savedWithExtra : List (String × Int) :=
  [("pomodoroCount", 3), ("extra", 7)]

/-! ## Theorems -/

/-- C3: `Storage.get` never raises — on a missing key, corrupt data, or a
deserialization failure it returns absent (`none`) rather than an error, and
returns the stored value on a good entry; `Storage.set` never raises — on a
write failure (quota exceeded) it silently leaves the store unchanged, and a
subsequent `get` on an unrelated key still succeeds with its stored value. -/
theorem storage_get_set_never_raise {V : Type} (s : Store V)
    (kmiss kcorr kok k : String) (v w : V)
    (hmiss : getItem s kmiss = none)
    (hcorr : getItem s kcorr = some JsonEntry.corrupt)
    (hok : getItem s kok = some (JsonEntry.good w))
    (hq : s.quotaExceeded = true) :
    Storage.get s kmiss = none ∧
    Storage.get s kcorr = none ∧
    Storage.get s kok = some w ∧
    Storage.set s k v = s ∧
    Storage.get (Storage.set s k v) kok = some w := by
  have hset : Storage.set s k v = s := by
    simp [Storage.set, setItemRaw, hq]
  refine ⟨?_, ?_, ?_, hset, ?_⟩
  · simp [Storage.get, hmiss]
  · simp [Storage.get, hcorr, jsonParse]
  · simp [Storage.get, hok, jsonParse]
  · rw [hset]; simp [Storage.get, hok, jsonParse]

/-- Witness for C3 on a concrete over-quota store with one corrupt and one
good entry. -/
theorem storage_get_set_never_raise_witness :
    Storage.get intStoreFull "m" = none ∧
    Storage.get intStoreFull "c" = none ∧
    Storage.get intStoreFull "d" = some 7 ∧
    Storage.set intStoreFull "x" 0 = intStoreFull ∧
    Storage.get (Storage.set intStoreFull "x" 0) "d" = some 7 :=
  storage_get_set_never_raise intStoreFull "m" "c" "d" "x" 0 7
    (by decide) (by decide) (by decide) (by decide)

/-- C1: on expiry of a focus session, `complete()` increments
`pomodoroCount` by exactly 1, increments `currentStreak` by exactly 1, sets
`bestStreak` to the maximum of the old `bestStreak` and the new
`currentStreak`, persists the new stats to the store, and selects `'long'`
as the next mode exactly when the new `pomodoroCount` is divisible by 4 and
`'short'` otherwise; on expiry of a break, it selects `'focus'` and leaves
the stats and the store untouched. -/
theorem complete_focus_and_break_transitions (s t : PomodoroState)
    (hs : s.currentMode = Mode.focus) (ht : t.currentMode ≠ Mode.focus) :
    (PomodoroManager.complete s).stats.pomodoroCount
        = s.stats.pomodoroCount + 1 ∧
    (PomodoroManager.complete s).stats.currentStreak
        = s.stats.currentStreak + 1 ∧
    (PomodoroManager.complete s).stats.bestStreak
        = max s.stats.bestStreak (s.stats.currentStreak + 1) ∧
    (PomodoroManager.complete s).store
        = Storage.set s.store pomodoroStatsKey
            (PomodoroManager.complete s).stats ∧
    ((PomodoroManager.complete s).currentMode = Mode.long
        ↔ (4 : Int) ∣ (s.stats.pomodoroCount + 1)) ∧
    ((PomodoroManager.complete s).currentMode = Mode.long
        ∨ (PomodoroManager.complete s).currentMode = Mode.short) ∧
    (PomodoroManager.complete t).currentMode = Mode.focus ∧
    (PomodoroManager.complete t).stats = t.stats ∧
    (PomodoroManager.complete t).store = t.store := by
  rcases Decidable.em ((s.stats.pomodoroCount + 1).tmod 4 = 0) with h4 | h4 <;>
    simp [PomodoroManager.complete, PomodoroManager.pause,
      PomodoroManager.save, PomodoroManager.setMode, hs, ht, h4,
      Int.dvd_iff_tmod_eq_zero]

/-- Witness for C1 at a finished focus session with fresh stats and a
finished short break. -/
theorem complete_focus_and_break_transitions_witness :
    (PomodoroManager.complete focusState).stats.pomodoroCount
        = focusState.stats.pomodoroCount + 1 ∧
    (PomodoroManager.complete focusState).stats.currentStreak
        = focusState.stats.currentStreak + 1 ∧
    (PomodoroManager.complete focusState).stats.bestStreak
        = max focusState.stats.bestStreak
            (focusState.stats.currentStreak + 1) ∧
    (PomodoroManager.complete focusState).store
        = Storage.set focusState.store pomodoroStatsKey
            (PomodoroManager.complete focusState).stats ∧
    ((PomodoroManager.complete focusState).currentMode = Mode.long
        ↔ (4 : Int) ∣ (focusState.stats.pomodoroCount + 1)) ∧
    ((PomodoroManager.complete focusState).currentMode = Mode.long
        ∨ (PomodoroManager.complete focusState).currentMode = Mode.short) ∧
    (PomodoroManager.complete shortBreakState).currentMode = Mode.focus ∧
    (PomodoroManager.complete shortBreakState).stats
        = shortBreakState.stats ∧
    (PomodoroManager.complete shortBreakState).store
        = shortBreakState.store :=
  complete_focus_and_break_transitions focusState shortBreakState
    rfl (by decide)

/-- Helper: `complete` never lowers `bestStreak`. -/
lemma complete_bestStreak_le (s : PomodoroState) :
    s.stats.bestStreak ≤ (PomodoroManager.complete s).stats.bestStreak := by
  rcases Decidable.em (s.currentMode = Mode.focus) with hf | hf <;>
    rcases Decidable.em ((s.stats.pomodoroCount + 1).tmod 4 = 0) with
      h4 | h4 <;>
    simp [PomodoroManager.complete, PomodoroManager.pause,
      PomodoroManager.save, PomodoroManager.setMode, hf, h4, le_max_left]

/-- Helper: no single timer operation lowers `bestStreak`. -/
lemma step_bestStreak_le (s : PomodoroState) (op : Op) :
    s.stats.bestStreak ≤ (step s op).stats.bestStreak := by
  cases op with
  | setMode mode minutes => simp [step, PomodoroManager.setMode]
  | start => simp only [step, PomodoroManager.start]; split <;> simp
  | pause => simp [step, PomodoroManager.pause]
  | reset => simp [step, PomodoroManager.reset, PomodoroManager.pause]
  | tick =>
    simp only [step, PomodoroManager.tick]
    split
    · simp
    · exact complete_bestStreak_le s

/-- Helper: across any operation sequence, `bestStreak` never decreases. -/
lemma run_bestStreak_le (ops : List Op) (s : PomodoroState) :
    s.stats.bestStreak ≤ (run s ops).stats.bestStreak := by
  induction ops generalizing s with
  | nil => exact le_refl _
  | cons op ops ih =>
    exact le_trans (step_bestStreak_le s op) (ih (step s op))

/-- Helper: a timer operation that changes the stats object at all is a
focus-session completion, after which `bestStreak` dominates
`currentStreak`. -/
lemma step_stats_change_dominates (s : PomodoroState) (op : Op)
    (hchg : (step s op).stats ≠ s.stats) :
    (step s op).stats.currentStreak ≤ (step s op).stats.bestStreak := by
  cases op with
  | setMode mode minutes =>
    exact absurd rfl hchg
  | start =>
    exfalso
    apply hchg
    simp only [step, PomodoroManager.start]
    split <;> rfl
  | pause =>
    exact absurd rfl hchg
  | reset =>
    exact absurd rfl hchg
  | tick =>
    by_cases hgt : jsGtZero s.time = true
    · exact absurd (by simp [step, PomodoroManager.tick, hgt]) hchg
    · have hstep : step s Op.tick = PomodoroManager.complete s := by
        simp [step, PomodoroManager.tick, hgt]
      rw [hstep] at hchg ⊢
      rcases Decidable.em (s.currentMode = Mode.focus) with hf | hf
      · rcases Decidable.em ((s.stats.pomodoroCount + 1).tmod 4 = 0) with
          h4 | h4 <;>
          simp [PomodoroManager.complete, PomodoroManager.pause,
            PomodoroManager.save, PomodoroManager.setMode, hf, h4,
            le_max_right]
      · refine absurd ?_ hchg
        simp [PomodoroManager.complete, PomodoroManager.pause,
          PomodoroManager.setMode, hf]

/-- C2: across every sequence of timer operations (`setMode`, `start`,
`pause`, `reset`, interval ticks and the completions they trigger),
`bestStreak` never decreases, and immediately after any operation that
updates the stats, `bestStreak` is at least `currentStreak`. -/
theorem bestStreak_monotone_and_dominant (s : PomodoroState)
    (ops : List Op) (op : Op)
    (hchg : (step s op).stats ≠ s.stats) :
    s.stats.bestStreak ≤ (run s ops).stats.bestStreak ∧
    (step s op).stats.currentStreak ≤ (step s op).stats.bestStreak :=
  ⟨run_bestStreak_le ops s, step_stats_change_dominates s op hchg⟩

/-- Witness for C2: a drained focus session ticks into `complete`, the stats
change, and the invariant holds afterwards. -/
theorem bestStreak_monotone_and_dominant_witness :
    (step focusState Op.tick).stats ≠ focusState.stats ∧
    focusState.stats.bestStreak
        ≤ (run focusState [Op.tick, Op.reset, Op.tick]).stats.bestStreak ∧
    (step focusState Op.tick).stats.currentStreak
        ≤ (step focusState Op.tick).stats.bestStreak := by
  have h := bestStreak_monotone_and_dominant focusState
    [Op.tick, Op.reset, Op.tick] Op.tick (by decide)
  exact ⟨by decide, h.1, h.2⟩

/-- C6 counterexample: with the work duration configured to 1 minute by the
most recent `setMode('focus', 1)` call, completing the session adds 25 — the
fixed `this.modes.focus.time` — to `totalFocusTime`, not the configured 1
minute. -/
theorem complete_ignores_configured_duration :
    (PomodoroManager.complete
        (PomodoroManager.setMode focusState Mode.focus
          (some 1))).stats.totalFocusTime
      ≠ (PomodoroManager.setMode focusState Mode.focus
          (some 1)).stats.totalFocusTime + 1 ∧
    (PomodoroManager.complete
        (PomodoroManager.setMode focusState Mode.focus
          (some 1))).stats.totalFocusTime
      = (PomodoroManager.setMode focusState Mode.focus
          (some 1)).stats.totalFocusTime + 25 := by
  decide

/-- C6 amended: on expiry of a work session, `complete()` adds the fixed
default work duration `this.modes.focus.time = 25` minutes to
`totalFocusTime`, regardless of the duration passed to the most recent
`setMode` call. -/
theorem complete_adds_fixed_focus_minutes (s : PomodoroState)
    (hs : s.currentMode = Mode.focus) :
    (PomodoroManager.complete s).stats.totalFocusTime
      = s.stats.totalFocusTime + 25 := by
  rcases Decidable.em ((s.stats.pomodoroCount + 1).tmod 4 = 0) with h4 | h4 <;>
    simp [PomodoroManager.complete, PomodoroManager.pause,
      PomodoroManager.save, PomodoroManager.setMode, hs, h4, modeTime]

/-- Witness for the amended C6 at a finished focus session. -/
theorem complete_adds_fixed_focus_minutes_witness :
    (PomodoroManager.complete focusState).stats.totalFocusTime
      = focusState.stats.totalFocusTime + 25 :=
  complete_adds_fixed_focus_minutes focusState rfl

/-- C9 counterexample: `setMode('focus', -5)` leaves the countdown at
-300 seconds — not the default 25-minute duration the claim requires — and
a NaN minutes value leaves the countdown NaN. -/
theorem setMode_does_not_coerce :
    (PomodoroManager.setMode focusState Mode.focus (some (-5))).time
        = some (-300) ∧
    (PomodoroManager.setMode focusState Mode.focus (some (-5))).time
        ≠ some (25 * 60) ∧
    (PomodoroManager.setMode focusState Mode.focus none).time = none := by
  decide

/-- C9 amended: `setMode(mode, minutes)` raises no error, but performs no
coercion either — it stores `minutes * 60` as the remaining seconds, so a
non-positive minutes value yields a non-positive countdown different from
the mode's default, and a non-numeric (NaN) minutes value yields a NaN
countdown. -/
theorem setMode_propagates_malformed_minutes (s : PomodoroState)
    (mode : Mode) (m : Int) (hm : m ≤ 0) :
    (PomodoroManager.setMode s mode (some m)).time = some (m * 60) ∧
    (PomodoroManager.setMode s mode (some m)).time
        ≠ some (modeTime mode * 60) ∧
    (PomodoroManager.setMode s mode none).time = none := by
  refine ⟨by simp [PomodoroManager.setMode, jsMul], ?_,
    by simp [PomodoroManager.setMode, jsMul]⟩
  cases mode <;>
    simp only [PomodoroManager.setMode, jsMul, modeTime] <;>
    intro hcontra <;>
    rw [Option.some_inj] at hcontra <;>
    omega

/-- Witness for the amended C9 at minutes -5 in focus mode. -/
theorem setMode_propagates_malformed_minutes_witness :
    (PomodoroManager.setMode focusState Mode.focus (some (-5))).time
        = some (-5 * 60) ∧
    (PomodoroManager.setMode focusState Mode.focus (some (-5))).time
        ≠ some (modeTime Mode.focus * 60) ∧
    (PomodoroManager.setMode focusState Mode.focus none).time = none :=
  setMode_propagates_malformed_minutes focusState Mode.focus (-5)
    (by decide)

/-- C5 counterexample: on an empty collection with the cursor at its initial
index 0, `nextCard()` is not a guarded no-op — the JS `%` by length 0 turns
the cursor into NaN, so the cursor does not stay unchanged. -/
theorem nextCard_empty_not_noop :
    (FlashcardManager.nextCard emptyCards).currentCardIndex = none ∧
    (FlashcardManager.previousCard emptyCards).currentCardIndex = none ∧
    emptyCards.currentCardIndex = some 0 ∧
    (FlashcardManager.nextCard emptyCards).currentCardIndex
      ≠ emptyCards.currentCardIndex := by
  decide

/-- C5 amended: on a nonempty collection, `nextCard()` advances and
`previousCard()` retreats the study cursor by 1 with wrap-around modulo the
collection size; on an empty collection both operations set the cursor to
NaN (there is no emptiness guard), rather than leaving it unchanged. -/
theorem flashcard_navigation_amended (s e : FlashcardState) (i : Int)
    (hidx : s.currentCardIndex = some i) (hi : 0 ≤ i)
    (hne : s.flashcards ≠ [])
    (he : e.flashcards = []) :
    (FlashcardManager.nextCard s).currentCardIndex
        = some ((i + 1) % (s.flashcards.length : Int)) ∧
    (FlashcardManager.previousCard s).currentCardIndex
        = some ((i - 1) % (s.flashcards.length : Int)) ∧
    (FlashcardManager.nextCard e).currentCardIndex = none ∧
    (FlashcardManager.previousCard e).currentCardIndex = none := by
  have hlpos : 0 < s.flashcards.length := List.length_pos.mpr hne
  have hone : (1 : Int) ≤ (s.flashcards.length : Int) := by
    exact_mod_cast hlpos
  have hL : ((s.flashcards.length : Int)) ≠ 0 := by omega
  refine ⟨?_, ?_, ?_, ?_⟩
  · simp only [FlashcardManager.nextCard, hidx, jsAdd, jsMod]
    rw [if_neg hL]
    congr 1
    exact Int.tmod_eq_emod (by omega) (by omega)
  · simp only [FlashcardManager.previousCard, hidx, jsSub, jsAdd, jsMod]
    rw [if_neg hL]
    congr 1
    rw [Int.tmod_eq_emod (by omega) (by omega), Int.add_emod_self]
  · cases hc : e.currentCardIndex <;>
      simp [FlashcardManager.nextCard, he, hc, jsMod, jsAdd]
  · cases hc : e.currentCardIndex <;>
      simp [FlashcardManager.previousCard, he, hc, jsMod, jsSub, jsAdd]

/-- Witness for the amended C5 at a 3-card collection with the cursor at
index 0: `previousCard` wraps to index 2, `nextCard` moves to index 1, and
on the empty collection the cursor becomes NaN. -/
theorem flashcard_navigation_amended_witness :
    (FlashcardManager.previousCard threeCards).currentCardIndex = some 2 ∧
    (FlashcardManager.nextCard threeCards).currentCardIndex = some 1 ∧
    (FlashcardManager.nextCard emptyCards).currentCardIndex = none := by
  have h := flashcard_navigation_amended threeCards emptyCards 0 rfl
    (by decide) (by decide) rfl
  refine ⟨?_, ?_, h.2.2.1⟩
  · rw [h.2.1]; decide
  · rw [h.1]; decide

/-- C4 counterexample: task input whose `time` parses to -5 passes
validation and the created task keeps `time = -5` — not a positive integer
and not the default 25 that the claim requires for an invalid value. -/
theorem addTask_keeps_negative_minutes :
    addedTaskTime (TaskManager.addTask 1000 "T" tmEmpty negTimeTaskData)
        = some (-5) ∧
    ¬ (0 < (-5 : Int)) ∧ (-5 : Int) ≠ 25 := by
  decide

/-- C4 amended: `addTask` fails exactly when the title or the date is
absent or empty; otherwise it appends exactly one new task with
`completed = false`, the given `now` as id, description defaulting to empty
and priority defaulting to `'media'` when absent, persists the collection,
and returns the created task — but `time` only falls back to 25 when the
parsed value is NaN (absent or non-numeric) or 0; any other parsed integer,
negative values included, is kept as is. -/
theorem addTask_validation_and_defaults (now : Int) (cAt : String)
    (st : TaskManagerState) (dbad dok : TaskData)
    (hbad : (falsyStr dbad.title || falsyStr dbad.date) = true)
    (hok : (falsyStr dok.title || falsyStr dok.date) = false) :
    TaskManager.addTask now cAt st dbad
        = Except.error "Title and date are required" ∧
    ∃ task : Task,
      TaskManager.addTask now cAt st dok
          = Except.ok
              ({ tasks := st.tasks ++ [task],
                 store := Storage.set st.store tasksKey
                   (st.tasks ++ [task]) }, task) ∧
      task.completed = false ∧
      task.id = now ∧
      (dok.desc = none → task.desc = "") ∧
      (dok.priority = none → task.priority = "media") ∧
      (dok.time = none → task.time = 25) ∧
      (dok.time = some 0 → task.time = 25) ∧
      (∀ n : Int, dok.time = some n → n ≠ 0 → task.time = n) := by
  constructor
  · simp [TaskManager.addTask, hbad]
  · refine ⟨Task.mk now (dok.title.getD "") (orDefaultStr dok.desc "")
        (dok.date.getD "") (timeOrDefault dok.time)
        (orDefaultStr dok.priority "media") false cAt,
        ?_, rfl, rfl, ?_, ?_, ?_, ?_, ?_⟩
    · simp [TaskManager.addTask, hok]
    · intro hd; simp [hd, orDefaultStr]
    · intro hp; simp [hp, orDefaultStr]
    · intro ht; simp [ht, timeOrDefault]
    · intro ht; simp [ht, timeOrDefault]
    · intro n ht hn; simp [ht, timeOrDefault, hn]

/-- Witness for the amended C4: a titleless input fails, a valid input with
no optional fields creates a task with the defaults. -/
theorem addTask_validation_and_defaults_witness :
    TaskManager.addTask 1000 "T" tmEmpty badTaskData
        = Except.error "Title and date are required" ∧
    ∃ task : Task,
      TaskManager.addTask 1000 "T" tmEmpty sampleTaskData
          = Except.ok
              ({ tasks := tmEmpty.tasks ++ [task],
                 store := Storage.set tmEmpty.store tasksKey
                   (tmEmpty.tasks ++ [task]) }, task) ∧
      task.completed = false ∧
      task.id = 1000 ∧
      (sampleTaskData.desc = none → task.desc = "") ∧
      (sampleTaskData.priority = none → task.priority = "media") ∧
      (sampleTaskData.time = none → task.time = 25) ∧
      (sampleTaskData.time = some 0 → task.time = 25) ∧
      (∀ n : Int, sampleTaskData.time = some n → n ≠ 0 → task.time = n) :=
  addTask_validation_and_defaults 1000 "T" tmEmpty badTaskData
    sampleTaskData (by decide) (by decide)

/-- C7: the claim that `Date.now()`-based id generation is collision-free is
the intent stated by the code comment (`id: unique numeric id`), but two
`addTask` calls within the same millisecond observe the same `Date.now()`
value and produce two tasks with the same id — the resulting id list
`[1000, 1000]` has a duplicate. -/
theorem same_millisecond_ids_collide :
    afterTwoAdds.map (fun st => st.tasks.map Task.id)
        = some [1000, 1000] ∧
    ¬ (List.Nodup [(1000 : Int), 1000]) := by
  decide

/-- C10: `deleteTask(id)` removes every task whose id equals `id`, keeps the
remaining tasks — with their fields — in their original relative order
(the result is a sublist of the original collection containing every
non-matching task), and when no task matches the collection stays equal to
its prior value while the collection is still re-persisted to the store. -/
theorem deleteTask_removes_matching_and_persists
    (st st2 : TaskManagerState) (id id2 : Int)
    (hnone : ∀ t ∈ st2.tasks, t.id ≠ id2) :
    (∀ t ∈ (TaskManager.deleteTask st id).tasks, t.id ≠ id) ∧
    List.Sublist (TaskManager.deleteTask st id).tasks st.tasks ∧
    (∀ t ∈ st.tasks, t.id ≠ id → t ∈ (TaskManager.deleteTask st id).tasks) ∧
    (TaskManager.deleteTask st id).store
        = Storage.set st.store tasksKey
            (TaskManager.deleteTask st id).tasks ∧
    (TaskManager.deleteTask st2 id2).tasks = st2.tasks ∧
    (TaskManager.deleteTask st2 id2).store
        = Storage.set st2.store tasksKey st2.tasks := by
  have heq : (TaskManager.deleteTask st2 id2).tasks = st2.tasks := by
    simp only [TaskManager.deleteTask]
    rw [List.filter_eq_self]
    intro t ht
    simpa [bne_iff_ne] using hnone t ht
  refine ⟨?_, ?_, ?_, rfl, heq, ?_⟩
  · intro t ht
    have := List.of_mem_filter ht
    simpa [bne_iff_ne] using this
  · exact List.filter_sublist _
  · intro t ht hne
    exact List.mem_filter.mpr ⟨ht, by simpa [bne_iff_ne] using hne⟩
  · have hst : (TaskManager.deleteTask st2 id2).store
        = Storage.set st2.store tasksKey
            (TaskManager.deleteTask st2 id2).tasks := rfl
    rw [hst, heq]

/-- Witness for C10 on a two-task collection: deleting id 1 removes exactly
that task, deleting the absent id 999 leaves the collection unchanged while
re-persisting it. -/
theorem deleteTask_removes_matching_and_persists_witness :
    (∀ t ∈ (TaskManager.deleteTask tmTwoTasks 1).tasks, t.id ≠ 1) ∧
    List.Sublist (TaskManager.deleteTask tmTwoTasks 1).tasks
      tmTwoTasks.tasks ∧
    (∀ t ∈ tmTwoTasks.tasks, t.id ≠ 1
      → t ∈ (TaskManager.deleteTask tmTwoTasks 1).tasks) ∧
    (TaskManager.deleteTask tmTwoTasks 1).store
        = Storage.set tmTwoTasks.store tasksKey
            (TaskManager.deleteTask tmTwoTasks 1).tasks ∧
    (TaskManager.deleteTask tmTwoTasks 999).tasks = tmTwoTasks.tasks ∧
    (TaskManager.deleteTask tmTwoTasks 999).store
        = Storage.set tmTwoTasks.store tasksKey tmTwoTasks.tasks :=
  deleteTask_removes_matching_and_persists tmTwoTasks tmTwoTasks 1 999
    (by decide)

/-- C8 counterexample: a persisted record holding the extra field
`"extra": 7` outside the stats schema is not ignored by the load-time merge
`{ ...this.stats, ...savedStats }` — the field is present in the resulting
in-memory record with value 7. -/
theorem load_retains_extra_field :
    loadStatsObj (some savedWithExtra) "extra" = some 7 ∧
    loadStatsObj (some savedWithExtra) "extra" ≠ none := by
  decide

/-- C8 amended: the load-time merge of a persisted partial stats record over
the zero-initialized defaults keeps the default value of every field missing
from the persisted record, keeps every field present in the persisted record
at its persisted value — fields outside the schema included, which are
therefore retained rather than ignored — and keeps all defaults when nothing
was persisted. -/
theorem load_merge_amended (obj : List (String × Int)) (km kp : String)
    (v : Int) (hm : jsLookup obj km = none) (hp : jsLookup obj kp = some v) :
    loadStatsObj (some obj) km = jsLookup defaultStatsObj km ∧
    loadStatsObj (some obj) kp = some v ∧
    loadStatsObj none km = jsLookup defaultStatsObj km := by
  refine ⟨?_, ?_, rfl⟩
  · simp [loadStatsObj, hm]
  · simp [loadStatsObj, hp]

/-- Witness for the amended C8: loading `savedWithExtra` keeps the default 0
for the missing `bestStreak` field and retains the extra field at 7. -/
theorem load_merge_amended_witness :
    loadStatsObj (some savedWithExtra) "bestStreak" = some 0 ∧
    loadStatsObj (some savedWithExtra) "extra" = some 7 := by
  have h := load_merge_amended savedWithExtra "bestStreak" "extra" 7
    (by decide) (by decide)
  exact ⟨by rw [h.1]; decide, h.2.1⟩

end EduFlow
